import Mathlib

/-!
Verification development for the nowschema repository's tenancy, quota and
billing schema.  The definitions below are a shallow embedding of the SQL
schema (migration 001, `src/unnamed/part_003`) and of the admin functions
(migration 002, `src/infra/supabase/migrations/002_admin_functions.sql`).

Modelling conventions:
- UUIDs are modelled as `Nat`; `TIMESTAMPTZ` values as `Int` (seconds);
  `VARCHAR` as `String`; nullable columns as `Option`.
- `DATE_TRUNC('month', CURRENT_TIMESTAMP)` is passed in as an explicit
  `month_start : Int` argument; `CURRENT_TIMESTAMP` as `now : Int`.
- A PL/pgSQL `SELECT ... INTO v` that matches no row leaves `v` NULL;
  this is modelled with `Option` and `List.find?`.
- Functions whose SQL bodies only read the database are still given the
  database state as result component where a claim speaks about the state
  they leave behind, so that the absence of writes is part of the statement.
- `FLOAT` aggregates (`cache_hit_rate`, `avg_latency_ms`) are modelled
  over `ℚ`; the SQL computes exact ratios of integer aggregates.
-/

namespace Nowschema

/-- A row of the `usage_logs` table (migration 001). -/
structure UsageLog where
  id : Nat
  tenant_id : Nat
  api_key_id : Option Nat
  endpoint : String
  query_count : Int
  cache_hit : Bool
  latency_ms : Int
  status_code : Int
  created_at : Int
  deriving Repr, DecidableEq

/-- A row of the `tenants` table (migration 001). -/
structure Tenant where
  id : Nat
  name : String
  slug : String
  stripe_customer_id : Option String
  stripe_subscription_id : Option String
  plan_tier : String
  subscription_status : String
  sso_enabled : Bool
  sso_provider : Option String
  sso_domain : Option String
  created_at : Int
  updated_at : Int
  deriving Repr, DecidableEq

/-- A row of the `plan_config` table (migration 001). -/
structure PlanConfig where
  id : Nat
  plan_tier : String
  stripe_price_id : Option String
  queries_per_month : Int
  rate_limit_per_minute : Int
  features : List String
  price_monthly_cents : Int
  created_at : Int
  updated_at : Int
  deriving Repr, DecidableEq

/-- A row of the `billing_events` table (migration 001). -/
structure BillingEvent where
  id : Nat
  event_id : String
  event_type : String
  payload : String
  processed : Bool
  created_at : Int
  deriving Repr, DecidableEq

/-- The database state: the four tables the claims are about. -/
structure DB where
  tenants : List Tenant
  usage_logs : List UsageLog
  billing_events : List BillingEvent
  plan_config : List PlanConfig
  deriving Repr, DecidableEq

/-- The `valid_plan_tier` CHECK constraint on `tenants`:
`plan_tier IN ('free', 'starter', 'professional', 'enterprise')`. -/
def valid_plan_tier (s : String) : Bool :=
  s == "free" || s == "starter" || s == "professional" || s == "enterprise"

/-- The `valid_subscription_status` CHECK constraint on `tenants`:
`subscription_status IN ('active', 'past_due', 'canceled', 'trialing', 'incomplete')`. -/
def valid_subscription_status (s : String) : Bool :=
  s == "active" || s == "past_due" || s == "canceled" || s == "trialing" ||
    s == "incomplete"

/-- The row seeded for the free tier:
`('free', 1000, 10, '["single_search", "basic_support"]', 0)`.
`id` and the timestamps are column defaults, modelled as 0. -/
def plan_free : PlanConfig :=
  { id := 0, plan_tier := "free", stripe_price_id := none,
    queries_per_month := 1000, rate_limit_per_minute := 10,
    features := ["single_search", "basic_support"],
    price_monthly_cents := 0, created_at := 0, updated_at := 0 }

/-- The four rows seeded into `plan_config` by migration 001
(`INSERT INTO plan_config ... VALUES ('free', 1000, 10, ...), ...`).
`id` and the timestamps are column defaults, modelled as 0..3 and 0. -/
def default_plan_config : List PlanConfig :=
  [ plan_free,
    { id := 1, plan_tier := "starter", stripe_price_id := none,
      queries_per_month := 10000, rate_limit_per_minute := 60,
      features := ["single_search", "batch_search", "email_support"],
      price_monthly_cents := 2900, created_at := 0, updated_at := 0 },
    { id := 2, plan_tier := "professional", stripe_price_id := none,
      queries_per_month := 100000, rate_limit_per_minute := 300,
      features := ["single_search", "batch_search", "priority_support", "analytics"],
      price_monthly_cents := 9900, created_at := 0, updated_at := 0 },
    { id := 3, plan_tier := "enterprise", stripe_price_id := none,
      queries_per_month := 1000000, rate_limit_per_minute := 1000,
      features := ["single_search", "batch_search", "sso", "dedicated_support",
                   "analytics", "sla"],
      price_monthly_cents := 49900, created_at := 0, updated_at := 0 } ]

/-- `get_monthly_query_count` (migration 002):
`SELECT COALESCE(SUM(query_count), 0) FROM usage_logs
 WHERE tenant_id = p_tenant_id
 AND created_at >= DATE_TRUNC('month', CURRENT_TIMESTAMP)`. -/
def get_monthly_query_count (db : DB) (month_start : Int) (p_tenant_id : Nat) : Int :=
  ((db.usage_logs.filter
      (fun r => r.tenant_id == p_tenant_id && decide (month_start ≤ r.created_at))).map
    (fun r => r.query_count)).sum

/-- `check_tenant_quota` (migration 002).  Looks up the tenant's
`plan_tier` (NULL, i.e. no tenant row, returns FALSE), then the plan's
`queries_per_month` (a missing `plan_config` row leaves `v_quota` NULL and
the final comparison returns SQL NULL, modelled as `none`), then compares
`v_used + p_query_count <= v_quota`.  The body performs no INSERT or
UPDATE, so the database component of the result is the input state. -/
def check_tenant_quota (db : DB) (month_start : Int) (p_tenant_id : Nat)
    (p_query_count : Int) : Option Bool × DB :=
  match (db.tenants.find? (fun t => t.id == p_tenant_id)).map (fun t => t.plan_tier) with
  | none => (some false, db)
  | some v_plan_tier =>
    match (db.plan_config.find? (fun pc => pc.plan_tier == v_plan_tier)).map
        (fun pc => pc.queries_per_month) with
    | none => (none, db)
    | some v_quota =>
      let v_used := get_monthly_query_count db month_start p_tenant_id
      (some (decide (v_used + p_query_count ≤ v_quota)), db)

/-- The rows selected by `get_tenant_usage_stats` (migration 002):
`FROM usage_logs ul WHERE ul.tenant_id = p_tenant_id
 AND ul.created_at BETWEEN p_start_date AND p_end_date`. -/
def stats_rows (db : DB) (p_tenant_id : Nat) (p_start_date p_end_date : Int) :
    List UsageLog :=
  db.usage_logs.filter
    (fun r => r.tenant_id == p_tenant_id &&
      (decide (p_start_date ≤ r.created_at) && decide (r.created_at ≤ p_end_date)))

/-- The record returned by `get_tenant_usage_stats`. -/
structure UsageStats where
  total_requests : Int
  total_queries : Int
  cache_hit_rate : ℚ
  avg_latency_ms : ℚ
  by_endpoint : List (String × Int)
  deriving Repr, DecidableEq

/-- `get_tenant_usage_stats` (migration 002): COUNT, SUM of `query_count`,
`CASE WHEN COUNT(*) > 0 THEN SUM(CASE WHEN cache_hit THEN 1 ELSE 0 END) / COUNT(*) ELSE 0`,
`COALESCE(AVG(latency_ms), 0)`, and `jsonb_object_agg(endpoint, query_count)`
(modelled as the aggregated list of pairs). -/
def get_tenant_usage_stats (db : DB) (p_tenant_id : Nat)
    (p_start_date p_end_date : Int) : UsageStats :=
  let rows := stats_rows db p_tenant_id p_start_date p_end_date
  { total_requests := (rows.length : Int)
    total_queries := (rows.map (fun r => r.query_count)).sum
    cache_hit_rate :=
      if 0 < rows.length then
        ((rows.filter (fun r => r.cache_hit)).length : ℚ) / (rows.length : ℚ)
      else 0
    avg_latency_ms :=
      if 0 < rows.length then
        ((rows.map (fun r => r.latency_ms)).sum : ℚ) / (rows.length : ℚ)
      else 0
    by_endpoint := rows.map (fun r => (r.endpoint, r.query_count)) }

/-- `change_tenant_plan` (migration 002):
`UPDATE tenants SET plan_tier = p_new_plan,
 stripe_subscription_id = COALESCE(p_stripe_subscription_id, stripe_subscription_id),
 subscription_status = CASE WHEN p_new_plan = 'free' THEN 'active'
                            ELSE subscription_status END,
 updated_at = NOW() WHERE id = p_tenant_id; RETURN FOUND`. -/
def change_tenant_plan (db : DB) (now : Int) (p_tenant_id : Nat)
    (p_new_plan : String) (p_stripe_subscription_id : Option String) : Bool × DB :=
  let found := db.tenants.any (fun t => t.id == p_tenant_id)
  let tenants := db.tenants.map (fun t =>
    if t.id == p_tenant_id then
      { t with
        plan_tier := p_new_plan
        stripe_subscription_id :=
          match p_stripe_subscription_id with
          | some s => some s
          | none => t.stripe_subscription_id
        subscription_status :=
          if p_new_plan == "free" then "active" else t.subscription_status
        updated_at := now }
    else t)
  (found, { db with tenants := tenants })

/-- `cleanup_old_usage_logs` (migration 002):
`DELETE FROM usage_logs
 WHERE created_at < CURRENT_TIMESTAMP - (p_days_to_keep || ' days')::INTERVAL`,
returning the deleted row count.  A day is 86400 seconds. -/
def cleanup_old_usage_logs (db : DB) (now : Int) (p_days_to_keep : Int) : DB × Int :=
  let cutoff := now - p_days_to_keep * 86400
  let kept := db.usage_logs.filter (fun r => decide (cutoff ≤ r.created_at))
  ({ db with usage_logs := kept },
   (db.usage_logs.length : Int) - (kept.length : Int))

/-- The webhook-shaped payload consumed by ConfigSync:
provider event id, event type, raw payload, and the tenant update it
carries (tenant reference, new plan tier, new subscription status). -/
structure WebhookEvent where
  event_id : String
  event_type : String
  payload : String
  tenant_id : Nat
  new_plan_tier : String
  new_subscription_status : String
  deriving Repr, DecidableEq

/-- The `UNIQUE NOT NULL` constraint on `billing_events.event_id`
(migration 001): an insert of a row whose `event_id` already occurs in the
table is rejected. -/
def insert_billing_event (db : DB) (b : BillingEvent) : Option DB :=
  if db.billing_events.any (fun x => x.event_id == b.event_id) then none
  else some { db with billing_events := db.billing_events ++ [b] }

/-- Modelled from the spec: the ConfigSync webhook processor is not under
`src/` (only the `billing_events` table and the spec describe it).  Spec
4.6: before processing, check whether the event id already exists in
BillingEvent; if so, acknowledge success without reprocessing.  Otherwise
persist the BillingEvent row, then apply the tenant update (plan tier and
subscription status), then mark the event processed, in that order. -/
def process_billing_event (db : DB) (now : Int) (ev : WebhookEvent)
    (fresh_id : Nat) : DB :=
  if db.billing_events.any (fun b => b.event_id == ev.event_id) then db
  else
    let db1 : DB :=
      { db with billing_events := db.billing_events ++
          [{ id := fresh_id, event_id := ev.event_id, event_type := ev.event_type,
             payload := ev.payload, processed := false, created_at := now }] }
    let db2 : DB :=
      { db1 with tenants := db1.tenants.map (fun t =>
          if t.id == ev.tenant_id then
            { t with
              plan_tier := ev.new_plan_tier
              subscription_status := ev.new_subscription_status
              updated_at := now }
          else t) }
    { db2 with billing_events := db2.billing_events.map (fun b =>
        if b.event_id == ev.event_id then { b with processed := true } else b) }

/-! Sample data for witnesses. -/

/-- A sample tenant on the free plan. -/
def sample_tenant : Tenant :=
  { id := 1, name := "Acme", slug := "acme", stripe_customer_id := none,
    stripe_subscription_id := none, plan_tier := "free",
    subscription_status := "active", sso_enabled := false,
    sso_provider := none, sso_domain := none, created_at := 0, updated_at := 0 }

/-- A sample usage-log row for tenant 1, created at time 100. -/
def sample_log : UsageLog :=
  { id := 10, tenant_id := 1, api_key_id := none, endpoint := "search",
    query_count := 3, cache_hit := true, latency_ms := 20, status_code := 200,
    created_at := 100 }

/-- A sample database holding one tenant, one usage log and the seeded
plan configuration. -/
def sample_db : DB :=
  { tenants := [sample_tenant], usage_logs := [sample_log],
    billing_events := [], plan_config := default_plan_config }

/-! Helper lemmas shared by the claim proofs. -/

/-- Filtering by a conjunction is filtering by the first conjunct and then
the second. -/
theorem filter_and_eq {α : Type} (t p : α → Bool) (l : List α) :
    l.filter (fun a => t a && p a) = (l.filter t).filter p := by
  induction l with
  | nil => rfl
  | cons a l ih =>
    by_cases ht : t a <;> by_cases hp : p a <;>
      simp [List.filter_cons, ht, hp, ih]

/-- Summing `query_count` over the filtered rows equals summing a guarded
term over all rows. -/
theorem sum_filter_eq_sum_ite (tid : Nat) (ms : Int) (l : List UsageLog) :
    ((l.filter (fun r => r.tenant_id == tid && decide (ms ≤ r.created_at))).map
        (fun r => r.query_count)).sum =
      (l.map (fun r =>
        if r.tenant_id = tid ∧ ms ≤ r.created_at then r.query_count else 0)).sum := by
  induction l with
  | nil => rfl
  | cons a l ih =>
    by_cases h1 : a.tenant_id = tid <;> by_cases h2 : ms ≤ a.created_at <;>
      simp [List.filter_cons, h1, h2, ih]

/-- The state component of `check_tenant_quota` is always the input state:
the function body only reads. -/
theorem check_tenant_quota_snd (db : DB) (ms : Int) (tid : Nat) (n : Int) :
    (check_tenant_quota db ms tid n).2 = db := by
  unfold check_tenant_quota
  split
  · rfl
  · split <;> rfl

/-! Claim theorems. -/

/-- C2: `get_monthly_query_count` sums `query_count` over exactly the
tenant's rows dated at or after the month start, and when every one of the
tenant's rows predates the month start the count is zero, so the quota
window resets on rollover. -/
theorem monthly_count_is_month_sum (db : DB) (ms : Int) (tid : Nat) :
    (get_monthly_query_count db ms tid =
      (db.usage_logs.map (fun r =>
        if r.tenant_id = tid ∧ ms ≤ r.created_at then r.query_count else 0)).sum) ∧
    ((∀ r ∈ db.usage_logs, r.tenant_id = tid → r.created_at < ms) →
      get_monthly_query_count db ms tid = 0) := by
  constructor
  · exact sum_filter_eq_sum_ite tid ms db.usage_logs
  · intro h
    unfold get_monthly_query_count
    have hnil : db.usage_logs.filter
        (fun r => r.tenant_id == tid && decide (ms ≤ r.created_at)) = [] := by
      rw [List.filter_eq_nil_iff]
      intro r hr
      simp only [Bool.and_eq_true, beq_iff_eq, decide_eq_true_eq, not_and]
      intro h1
      exact not_le.mpr (h r hr h1)
    rw [hnil]
    rfl

/-- C2 witness: a database whose only row predates the month start has a
zero monthly count. -/
theorem monthly_count_is_month_sum_witness :
    get_monthly_query_count sample_db 500 1 = 0 :=
  (monthly_count_is_month_sum sample_db 500 1).2 (by decide)

/-- C3: the `plan_config` seed holds pairwise-distinct plan tiers (the
UNIQUE constraint), and every plan tier admitted by the `valid_plan_tier`
CHECK constraint on `tenants` matches exactly one seeded row. -/
theorem plan_tier_resolves_uniquely (s : String) (h : valid_plan_tier s = true) :
    (default_plan_config.map (fun pc => pc.plan_tier)).Nodup ∧
    (default_plan_config.filter (fun pc => pc.plan_tier == s)).length = 1 := by
  refine ⟨by decide, ?_⟩
  unfold valid_plan_tier at h
  simp only [Bool.or_eq_true, beq_iff_eq] at h
  rcases h with ((h | h) | h) | h <;> subst h <;> decide

/-- C3 witness: the tier of the sample tenant resolves to exactly one
seeded plan row. -/
theorem plan_tier_resolves_uniquely_witness :
    (default_plan_config.filter (fun pc => pc.plan_tier == "free")).length = 1 :=
  (plan_tier_resolves_uniquely "free" (by decide)).2

/-- C5 counterexample: the `valid_subscription_status` CHECK constraint
admits the value "incomplete", which is outside the four values the claim
lists, so a tenant row with that status is admissible. -/
theorem subscription_status_not_four_valued :
    valid_subscription_status "incomplete" = true ∧
      "incomplete" ∉ (["active", "trialing", "past_due", "canceled"] : List String) := by
  decide

/-- C5 amended: a tenant row's subscription status is admissible exactly
when it is one of the five values active, past_due, canceled, trialing,
incomplete. -/
theorem subscription_status_five_values (s : String) :
    valid_subscription_status s = true ↔
      s ∈ (["active", "past_due", "canceled", "trialing", "incomplete"] : List String) := by
  unfold valid_subscription_status
  simp [or_assoc]

/-- C5 witness: "trialing" is admissible. -/
theorem subscription_status_five_values_witness :
    valid_subscription_status "trialing" = true :=
  (subscription_status_five_values "trialing").mpr (by decide)

/-- C8: when no tenants row matches the given id, `check_tenant_quota`
returns FALSE (not NULL and no error) and leaves the state unchanged,
for every requested query count. -/
theorem quota_check_unknown_tenant (db : DB) (ms : Int) (tid : Nat) (n : Int)
    (h : db.tenants.find? (fun t => t.id == tid) = none) :
    check_tenant_quota db ms tid n = (some false, db) := by
  unfold check_tenant_quota
  rw [h]
  rfl

/-- C8 witness: an unknown tenant id is denied on the sample database. -/
theorem quota_check_unknown_tenant_witness :
    check_tenant_quota sample_db 0 99 1 = (some false, sample_db) :=
  quota_check_unknown_tenant sample_db 0 99 1 (by decide)

/-- C1: when the tenant exists and its plan has a configuration row, the
quota check admits exactly when `used + requested <= queries_per_month`,
and the check leaves the database (in particular the stored usage rows)
unchanged: it performs no increment. -/
theorem quota_check_admits_iff (db : DB) (ms : Int) (tid : Nat) (n : Int)
    (t : Tenant) (pc : PlanConfig)
    (ht : db.tenants.find? (fun x => x.id == tid) = some t)
    (hpc : db.plan_config.find? (fun x => x.plan_tier == t.plan_tier) = some pc) :
    ((check_tenant_quota db ms tid n).1 = some true ↔
      get_monthly_query_count db ms tid + n ≤ pc.queries_per_month) ∧
    (check_tenant_quota db ms tid n).2 = db := by
  refine ⟨?_, check_tenant_quota_snd db ms tid n⟩
  unfold check_tenant_quota
  rw [ht]
  simp only [Option.map_some']
  rw [hpc]
  simp

/-- C1 witness: on the sample database (free plan, 3 queries used this
month), a request for 5 more is admitted since 3 + 5 is at most 1000, and
the state is unchanged. -/
theorem quota_check_admits_iff_witness :
    (((check_tenant_quota sample_db 0 1 5).1 = some true ↔
        get_monthly_query_count sample_db 0 1 + 5 ≤ plan_free.queries_per_month) ∧
      (check_tenant_quota sample_db 0 1 5).2 = sample_db) :=
  quota_check_admits_iff sample_db 0 1 5 sample_tenant plan_free
    (by decide) (by decide)

/-- C9: on a range containing none of the tenant's rows,
`get_tenant_usage_stats` divides by nothing and returns all-zero
aggregates and an empty endpoint aggregation. -/
theorem stats_total_on_empty_range (db : DB) (tid : Nat) (s e : Int)
    (h : ∀ r ∈ db.usage_logs, r.tenant_id = tid →
      ¬(s ≤ r.created_at ∧ r.created_at ≤ e)) :
    get_tenant_usage_stats db tid s e =
      { total_requests := 0, total_queries := 0, cache_hit_rate := 0,
        avg_latency_ms := 0, by_endpoint := [] } := by
  have hnil : stats_rows db tid s e = [] := by
    rw [stats_rows, List.filter_eq_nil_iff]
    intro r hr
    simp only [Bool.and_eq_true, beq_iff_eq, decide_eq_true_eq, not_and]
    intro h1 h2
    exact fun h3 => h r hr h1 ⟨h2, h3⟩
  unfold get_tenant_usage_stats
  rw [hnil]
  rfl

/-- C9 witness: the sample tenant has no rows between times 1000 and 2000,
and the stats there are all zero. -/
theorem stats_total_on_empty_range_witness :
    get_tenant_usage_stats sample_db 1 1000 2000 =
      { total_requests := 0, total_queries := 0, cache_hit_rate := 0,
        avg_latency_ms := 0, by_endpoint := [] } :=
  stats_total_on_empty_range sample_db 1 1000 2000 (by decide)

/-- C4 counterexample: `cleanup_old_usage_logs` deletes usage-log rows.
With retention 90 days and the clock far enough past the sample row's
timestamp, the row present before the call is gone after it, so the set of
`usage_logs` rows does not only grow across repository operations. -/
theorem usage_log_deleted_by_cleanup :
    sample_log ∈ sample_db.usage_logs ∧
      sample_log ∉ (cleanup_old_usage_logs sample_db (90 * 86400 + 200) 90).1.usage_logs := by
  decide

/-- C4 amended: usage-log rows are never mutated, and the only operation
that removes them is `cleanup_old_usage_logs`, which keeps exactly the
rows dated at or after the retention cutoff; the quota check, plan change
and billing operations leave `usage_logs` unchanged. -/
theorem usage_logs_append_only_except_cleanup (db : DB)
    (now days ms n now2 : Int) (tid fid : Nat) (plan : String)
    (stripe : Option String) (b : BillingEvent) (ev : WebhookEvent) :
    ((cleanup_old_usage_logs db now days).1.usage_logs.Sublist db.usage_logs) ∧
    (∀ r ∈ db.usage_logs, now - days * 86400 ≤ r.created_at →
      r ∈ (cleanup_old_usage_logs db now days).1.usage_logs) ∧
    (∀ r ∈ (cleanup_old_usage_logs db now days).1.usage_logs,
      r ∈ db.usage_logs ∧ now - days * 86400 ≤ r.created_at) ∧
    ((change_tenant_plan db now2 tid plan stripe).2.usage_logs = db.usage_logs) ∧
    ((check_tenant_quota db ms tid n).2.usage_logs = db.usage_logs) ∧
    (∀ db2, insert_billing_event db b = some db2 → db2.usage_logs = db.usage_logs) ∧
    ((process_billing_event db now2 ev fid).usage_logs = db.usage_logs) := by
  refine ⟨List.filter_sublist _, ?_, ?_, rfl, ?_, ?_, ?_⟩
  · intro r hr hcut
    exact List.mem_filter.mpr ⟨hr, by simpa using hcut⟩
  · intro r hr
    have := List.mem_filter.mp hr
    exact ⟨this.1, by simpa using this.2⟩
  · rw [check_tenant_quota_snd]
  · intro db2 h
    unfold insert_billing_event at h
    split at h
    · exact absurd h (by simp)
    · cases h
      rfl
  · unfold process_billing_event
    split <;> rfl

/-- C4 amended witness: a recent row survives cleanup on the sample
database. -/
theorem usage_logs_append_only_except_cleanup_witness :
    sample_log ∈ (cleanup_old_usage_logs sample_db 50 0).1.usage_logs :=
  (usage_logs_append_only_except_cleanup sample_db 50 0 0 0 0 0 0 "free" none
      { id := 0, event_id := "evt", event_type := "t", payload := "p",
        processed := false, created_at := 0 }
      { event_id := "evt", event_type := "t", payload := "p", tenant_id := 1,
        new_plan_tier := "free", new_subscription_status := "active" }).2.1
    sample_log (by decide) (by decide)

/-- A recorded billing event row. -/
def sample_event_row : BillingEvent :=
  { id := 7, event_id := "evt_1", event_type := "customer.subscription.updated",
    payload := "raw", processed := true, created_at := 0 }

/-- The sample database extended with one recorded billing event. -/
def sample_db_billing : DB :=
  { sample_db with billing_events := [sample_event_row] }

/-- A sample webhook notification for tenant 1. -/
def sample_webhook : WebhookEvent :=
  { event_id := "evt_2", event_type := "customer.subscription.updated",
    payload := "raw2", tenant_id := 1, new_plan_tier := "starter",
    new_subscription_status := "active" }

/-- A usage-log row belonging to a different tenant. -/
def sample_log_other : UsageLog :=
  { id := 11, tenant_id := 2, api_key_id := none, endpoint := "batch",
    query_count := 50, cache_hit := false, latency_ms := 90, status_code := 200,
    created_at := 150 }

/-- The sample database extended with another tenant's usage row. -/
def sample_db_other : DB :=
  { sample_db with usage_logs := sample_db.usage_logs ++ [sample_log_other] }

/-- Processing an event whose id is already recorded is the identity. -/
theorem process_billing_event_noop (db : DB) (now : Int) (ev : WebhookEvent)
    (fid : Nat)
    (h : db.billing_events.any (fun b => b.event_id == ev.event_id) = true) :
    process_billing_event db now ev fid = db := by
  unfold process_billing_event
  simp [h]

/-- After processing an event, its id is recorded in `billing_events`. -/
theorem process_billing_event_records (db : DB) (now : Int) (ev : WebhookEvent)
    (fid : Nat) :
    (process_billing_event db now ev fid).billing_events.any
      (fun b => b.event_id == ev.event_id) = true := by
  unfold process_billing_event
  by_cases h : db.billing_events.any (fun b => b.event_id == ev.event_id) = true
  · simp [h]
  · simp only [h, if_false, Bool.false_eq_true, if_neg]
    simp [List.any_map, List.any_append, Function.comp]

/-- C6: a second `billing_events` row with an already-recorded event id is
rejected by the UNIQUE constraint, and re-delivering the same webhook
event is a no-op: the whole database state, in particular the tenant's
plan tier and subscription status, equals the state after the first
delivery. -/
theorem billing_event_idempotent (db : DB) (now now2 : Int) (ev : WebhookEvent)
    (fid fid2 : Nat) (b : BillingEvent) :
    (b.event_id ∈ db.billing_events.map (fun x => x.event_id) →
      insert_billing_event db b = none) ∧
    process_billing_event (process_billing_event db now ev fid) now2 ev fid2 =
      process_billing_event db now ev fid := by
  constructor
  · intro h
    unfold insert_billing_event
    have hany : db.billing_events.any (fun x => x.event_id == b.event_id) = true := by
      rcases List.mem_map.mp h with ⟨x, hx, he⟩
      exact List.any_eq_true.mpr ⟨x, hx, by simp [he]⟩
    simp [hany]
  · exact process_billing_event_noop _ _ _ _
      (process_billing_event_records db now ev fid)

/-- C6 witness: re-inserting the recorded event row fails, and processing
the sample webhook twice equals processing it once. -/
theorem billing_event_idempotent_witness :
    insert_billing_event sample_db_billing sample_event_row = none ∧
      process_billing_event (process_billing_event sample_db_billing 5 sample_webhook 8)
          6 sample_webhook 9 =
        process_billing_event sample_db_billing 5 sample_webhook 8 :=
  ⟨(billing_event_idempotent sample_db_billing 5 6 sample_webhook 8 9
      sample_event_row).1 (by decide),
   (billing_event_idempotent sample_db_billing 5 6 sample_webhook 8 9
      sample_event_row).2⟩

/-- C7: usage aggregation is tenant-isolated.  Two database states that
agree on the usage rows of tenant `tid` report the same monthly count and
the same usage statistics for `tid`, whatever the other tenants' rows. -/
theorem usage_aggregation_tenant_isolated (db1 db2 : DB) (ms s e : Int)
    (tid : Nat)
    (h : db1.usage_logs.filter (fun r => r.tenant_id == tid) =
      db2.usage_logs.filter (fun r => r.tenant_id == tid)) :
    get_monthly_query_count db1 ms tid = get_monthly_query_count db2 ms tid ∧
    get_tenant_usage_stats db1 tid s e = get_tenant_usage_stats db2 tid s e := by
  have key : ∀ p : UsageLog → Bool,
      db1.usage_logs.filter (fun r => (r.tenant_id == tid) && p r) =
      db2.usage_logs.filter (fun r => (r.tenant_id == tid) && p r) := by
    intro p
    rw [filter_and_eq (fun r => r.tenant_id == tid) p db1.usage_logs,
      filter_and_eq (fun r => r.tenant_id == tid) p db2.usage_logs, h]
  constructor
  · unfold get_monthly_query_count
    rw [key (fun r => decide (ms ≤ r.created_at))]
  · have h2 : stats_rows db1 tid s e = stats_rows db2 tid s e := by
      unfold stats_rows
      exact key (fun r => decide (s ≤ r.created_at) && decide (r.created_at ≤ e))
    unfold get_tenant_usage_stats
    rw [h2]

/-- C7 witness: adding tenant 2's row leaves tenant 1's monthly count and
statistics unchanged. -/
theorem usage_aggregation_tenant_isolated_witness :
    get_monthly_query_count sample_db 0 1 = get_monthly_query_count sample_db_other 0 1 ∧
    get_tenant_usage_stats sample_db 1 0 200 = get_tenant_usage_stats sample_db_other 1 0 200 :=
  usage_aggregation_tenant_isolated sample_db sample_db_other 0 0 200 1 (by decide)

/-- C10: `change_tenant_plan` returns whether a tenant row matched, leaves
the other three tables unchanged, rewrites `tenants` by updating only the
matching row and only its `plan_tier`, `stripe_subscription_id` (kept when
the argument is NULL), `subscription_status` (forced to active exactly for
the free plan, otherwise kept) and `updated_at` fields, and when no row
matches it changes nothing. -/
theorem change_plan_frame (db : DB) (now : Int) (tid : Nat) (plan : String)
    (stripe : Option String) :
    (change_tenant_plan db now tid plan stripe).1 =
      db.tenants.any (fun t => t.id == tid) ∧
    (change_tenant_plan db now tid plan stripe).2.usage_logs = db.usage_logs ∧
    (change_tenant_plan db now tid plan stripe).2.billing_events = db.billing_events ∧
    (change_tenant_plan db now tid plan stripe).2.plan_config = db.plan_config ∧
    (change_tenant_plan db now tid plan stripe).2.tenants = db.tenants.map (fun t =>
      if t.id == tid then
        { t with
          plan_tier := plan
          stripe_subscription_id :=
            match stripe with
            | some s => some s
            | none => t.stripe_subscription_id
          subscription_status :=
            if plan == "free" then "active" else t.subscription_status
          updated_at := now }
      else t) ∧
    (db.tenants.any (fun t => t.id == tid) = false →
      (change_tenant_plan db now tid plan stripe).2 = db) := by
  refine ⟨rfl, rfl, rfl, rfl, rfl, ?_⟩
  intro hnone
  have hall : ∀ t ∈ db.tenants, (t.id == tid) = false := fun t ht =>
    Bool.eq_false_iff.mpr (List.any_eq_false.mp hnone t ht)
  have hmapgen : ∀ f : Tenant → Tenant, (∀ t ∈ db.tenants, f t = t) →
      ({ db with tenants := db.tenants.map f } : DB) = db := by
    intro f hf
    have hmap : db.tenants.map f = db.tenants := by
      conv_rhs => rw [← List.map_id db.tenants]
      exact List.map_congr_left fun t ht => by simp [hf t ht]
    rw [hmap]
  exact hmapgen _ fun t ht => by simp [hall t ht]

/-- C10 witness: changing the plan of an id no tenant has changes no row. -/
theorem change_plan_frame_witness :
    (change_tenant_plan sample_db 5 99 "starter" none).2 = sample_db :=
  (change_plan_frame sample_db 5 99 "starter" none).2.2.2.2.2 (by decide)

end Nowschema
